import Mathlib

/-!
Verification development for mp4_smaller_rust (src/src/main.rs).

The program resolves a video bitrate from an optional user override, a probed
media duration, a target output size and an audio bitrate, then hands the
resolved bitrates to an external encoder.  The bitrate-resolution block of
`main` (main.rs lines 26-39) and the helper `probe_duration`
(main.rs lines 87-107) are embedded below.

Modelling conventions:
- Rust `f64` values are embedded as `F64`: either NaN, a signed infinity, or a
  finite value represented as an exact rational.  Rounding of finite `f64`
  arithmetic to the nearest representable double is abstracted away (the
  arithmetic is exact over ℚ); none of the stated properties depends on that
  rounding, and the `0.85` literal is taken at its decimal value `85/100`.
- Rust `u64` values are embedded as ℕ; the saturating, truncating `as u64`
  cast from `f64` is `f64toU64`.
- The external process invocations are embedded by their observable results:
  `probe_duration` consumes an `Option CmdOutput` standing for what
  `Command::new("ffprobe")...output()` produced (`none` when the command could
  not be run at all).
-/

namespace Mp4Smaller

/-- Embedding of the Rust `f64` domain as far as the program observes it:
NaN, a signed infinity (`inf true` is negative infinity), or a finite value
as an exact rational. -/
inductive F64 where
  | nan : F64
  | inf : Bool → F64
  | num : ℚ → F64
deriving DecidableEq, Repr

/-- The comparison `duration > 0.0` of main.rs line 31 under IEEE-754
semantics: false on NaN, false on negative infinity, true on positive
infinity, and the ordinary order test on finite values. -/
def F64.gtZero : F64 → Bool
  | F64.nan => false
  | F64.inf neg => !neg
  | F64.num q => decide (0 < q)

/-- Rust `expr as u64` applied to a finite `f64`: truncate toward zero and
saturate into the `u64` range (negative values go to 0). -/
def f64toU64 (q : ℚ) : ℕ :=
  min (Int.toNat ⌊q⌋) (2 ^ 64 - 1)

/-- Rust `u64::clamp(self, lo, hi)` (main.rs line 37; there `lo = 200_000`,
`hi = 1_500_000`, so the `lo ≤ hi` precondition of `clamp` holds). -/
def clampU64 (x lo hi : ℕ) : ℕ :=
  if x < lo then lo else if hi < x then hi else x

/-- The byte budget consumed by audio: `args.audio_bitrate as f64 / 8.0 *
duration` (main.rs line 34). -/
def audioBytes (audio_bitrate : ℕ) (d : ℚ) : ℚ :=
  (audio_bitrate : ℚ) / 8 * d

/-- The `reserve` of main.rs lines 33-34:
`(args.target_bytes as f64 * 0.85) - (args.audio_bitrate as f64 / 8.0 * duration)`. -/
def reserveBytes (target_bytes audio_bitrate : ℕ) (d : ℚ) : ℚ :=
  (target_bytes : ℚ) * (85 / 100) - audioBytes audio_bitrate d

/-- The pre-clamp candidate bitrate `reserve * 8.0 / duration`
(main.rs line 36), as an exact rational. -/
def candidateBps (target_bytes audio_bitrate : ℕ) (d : ℚ) : ℚ :=
  reserveBytes target_bytes audio_bitrate d * 8 / d

/-- The bitrate-resolution block of `main` (main.rs lines 26-39):
start from `args.video_bitrate.unwrap_or(500_000)`; when `duration > 0.0` and
no override was given, compute the reserve and, if it is positive, clamp the
truncated candidate into [200_000, 1_500_000].

In the positive-infinity duration case the guard is taken but the `f64`
reserve is negative infinity (when `audio_bitrate > 0`) or NaN (when
`audio_bitrate = 0`, since `0.0 * inf` is NaN); either way `reserve > 0.0` is
false and the default is kept, which the `F64.inf` arm records directly.
NaN and negative infinity fail the guard and never reach the inner match. -/
def estimate_video_bitrate (video_bitrate : Option ℕ) (duration : F64)
    (target_bytes audio_bitrate : ℕ) : ℕ :=
  let v_bitrate := video_bitrate.getD 500000
  if duration.gtZero = true ∧ video_bitrate = none then
    match duration with
    | F64.num d =>
      if 0 < reserveBytes target_bytes audio_bitrate d then
        clampU64 (f64toU64 (reserveBytes target_bytes audio_bitrate d * 8 / d))
          200000 1500000
      else v_bitrate
    | _ => v_bitrate
  else v_bitrate

/-- `main`'s composition of the probe with the estimator (main.rs line 30):
`probe_duration(&args.input).unwrap_or(0.0)` feeds the estimator, so a failed
probe becomes the finite duration `0.0`. -/
def main_video_bitrate (video_bitrate : Option ℕ) (probed : Option F64)
    (target_bytes audio_bitrate : ℕ) : ℕ :=
  estimate_video_bitrate video_bitrate (probed.getD (F64.num 0))
    target_bytes audio_bitrate

/-- The numeric value (in kilobits) of the `-b:v` / `-maxrate` argument handed
to the encoder: `format!("{}k", v_bitrate / 1000)` (main.rs lines 56-59). -/
def bvArgKilobits (v_bitrate : ℕ) : ℕ :=
  v_bitrate / 1000

/-- The numeric value (in kilobits) of the `-bufsize` argument handed to the
encoder: `format!("{}k", v_bitrate / 500)` (main.rs line 61). -/
def bufsizeArgKilobits (v_bitrate : ℕ) : ℕ :=
  v_bitrate / 500

/-- The `-bufsize` argument converted to bits (one `k` unit = 1000 bits). -/
def bufsizeArgBits (v_bitrate : ℕ) : ℕ :=
  bufsizeArgKilobits v_bitrate * 1000

/-- Greedily split off the leading decimal digits of a character list. -/
def takeDigits : List Char → List Char × List Char
  | [] => ([], [])
  | c :: rest =>
    if c.isDigit then
      let p := takeDigits rest
      (c :: p.1, p.2)
    else ([], c :: rest)

/-- Read a digit list as a natural number. -/
def digitsToNat (l : List Char) : ℕ :=
  l.foldl (fun a c => a * 10 + (c.toNat - 48)) 0

/-- Split an optional leading sign; `true` means negative. -/
def splitSign : List Char → Bool × List Char
  | '+' :: rest => (false, rest)
  | '-' :: rest => (true, rest)
  | l => (false, l)

/-- Recognise the (case-insensitive) infinity spellings `f64::from_str`
accepts after the sign. -/
def isInfChars (l : List Char) : Bool :=
  l.map Char.toLower = String.toList "inf" ∨ l.map Char.toLower = String.toList "infinity"

/-- Recognise the (case-insensitive) NaN spelling `f64::from_str` accepts
after the sign. -/
def isNanChars (l : List Char) : Bool :=
  l.map Char.toLower = String.toList "nan"

/-- Parse the optional exponent suffix `(e|E)(+|-)?digits` of a decimal
literal; `some k` is the signed exponent, `none` a parse failure.  The whole
rest of the input must be consumed. -/
def parseExpSuffix : List Char → Option ℤ
  | [] => some 0
  | c :: rest =>
    if c = 'e' ∨ c = 'E' then
      let sgn := splitSign rest
      let p := takeDigits sgn.2
      if p.1 ≠ [] ∧ p.2 = [] then
        some (if sgn.1 then -(digitsToNat p.1 : ℤ) else (digitsToNat p.1 : ℤ))
      else none
    else none

/-- Parse an unsigned decimal literal `digits [. digits] [exp]` (at least one
mantissa digit required, as in `f64::from_str`) to its exact rational value. -/
def parseDecChars (l : List Char) : Option ℚ :=
  let ip := takeDigits l
  match ip.2 with
  | '.' :: afterDot =>
    let fp := takeDigits afterDot
    if ip.1 = [] ∧ fp.1 = [] then none
    else
      match parseExpSuffix fp.2 with
      | some e =>
        some (((digitsToNat ip.1 : ℚ) + (digitsToNat fp.1 : ℚ) / 10 ^ fp.1.length) * 10 ^ e)
      | none => none
  | rest =>
    if ip.1 = [] then none
    else
      match parseExpSuffix rest with
      | some e => some ((digitsToNat ip.1 : ℚ) * 10 ^ e)
      | none => none

/-- Embedding of Rust `s.parse::<f64>()` (main.rs line 107): an optional sign,
then `inf`/`infinity`, `nan` (case-insensitive), or a decimal literal.
Finite values are kept exact; rounding to the nearest double (and overflow of
huge literals to infinity) is abstracted away, which no claim depends on. -/
def parseF64 (s : String) : Option F64 :=
  let sgn := splitSign s.toList
  if isNanChars sgn.2 then some F64.nan
  else if isInfChars sgn.2 then some (F64.inf sgn.1)
  else
    match parseDecChars sgn.2 with
    | some q => some (F64.num (if sgn.1 then -q else q))
    | none => none

/-- Rust `str::trim`: drop leading and trailing whitespace.  Rust uses the
full Unicode White_Space property; the ASCII subset recognised by
`Char.isWhitespace` is the abstraction used here. -/
def trimChars (l : List Char) : List Char :=
  ((l.dropWhile Char.isWhitespace).reverse.dropWhile Char.isWhitespace).reverse

/-- `str::trim` lifted to strings. -/
def trimString (s : String) : String :=
  String.mk (trimChars s.toList)

/-- Observable result of running the probing command: `none` when the command
could not be run at all (`Command::output()` returned `Err`, main.rs line 101),
otherwise the exit status (as a success flag) and the captured standard
output (the lossy UTF-8 view of the stdout bytes). -/
structure CmdOutput where
  success : Bool
  stdout : String
deriving DecidableEq, Repr

/-- Embedding of `probe_duration` (main.rs lines 87-107): propagate a spawn
failure as `None` (`.ok()?`), return `None` on a non-zero exit status, and
otherwise parse the trimmed standard output as an `f64`. -/
def probe_duration (out : Option CmdOutput) : Option F64 :=
  match out with
  | none => none
  | some o =>
    if o.success = false then none
    else parseF64 (trimString o.stdout)

/-! ### Helper lemmas -/

/-- Sanity evaluations of the parser on representative outputs. -/
theorem parseF64_samples :
    parseF64 "" = none ∧ parseF64 "abc" = none ∧ parseF64 "1.2.3" = none ∧
      parseF64 "NaN" = some F64.nan ∧ parseF64 "-inf" = some (F64.inf true) ∧
      (∃ q, parseF64 "123.45" = some (F64.num q)) ∧
      (∃ q, parseF64 "1e3" = some (F64.num q)) ∧
      (∃ q, parseF64 "1.5e-1" = some (F64.num q)) ∧
      (∃ q, probe_duration (some { success := true, stdout := " 100.0\n" })
        = some (F64.num q)) :=
  ⟨by decide, by decide, by decide, by decide, by decide,
    ⟨_, rfl⟩, ⟨_, rfl⟩, ⟨_, rfl⟩, ⟨_, rfl⟩⟩

/-- Unfolding lemma: with no override, a finite strictly positive duration and
a positive reserve, `main` takes the clamp branch. -/
theorem estimate_eq_clamp_of_pos_reserve (tb ab : ℕ) (d : ℚ) (hd : 0 < d)
    (hr : 0 < reserveBytes tb ab d) :
    estimate_video_bitrate none (F64.num d) tb ab
      = clampU64 (f64toU64 (reserveBytes tb ab d * 8 / d)) 200000 1500000 := by
  simp [estimate_video_bitrate, F64.gtZero, hd, hr]

/-- `clampU64` with the program's constant bounds lands in the bounds. -/
theorem clampU64_range (x : ℕ) :
    200000 ≤ clampU64 x 200000 1500000 ∧ clampU64 x 200000 1500000 ≤ 1500000 := by
  unfold clampU64
  split_ifs <;> omega

/-- With no override the estimator always returns a strictly positive
bitrate: every branch yields either the 500000 default or a value clamped
up to at least 200000. -/
theorem estimate_none_pos (duration : F64) (tb ab : ℕ) :
    0 < estimate_video_bitrate none duration tb ab := by
  cases duration with
  | nan => simp [estimate_video_bitrate, F64.gtZero]
  | inf neg => cases neg <;> simp [estimate_video_bitrate, F64.gtZero]
  | num d =>
    by_cases hd : 0 < d
    · by_cases hr : 0 < reserveBytes tb ab d
      · rw [estimate_eq_clamp_of_pos_reserve tb ab d hd hr]
        have := clampU64_range (f64toU64 (reserveBytes tb ab d * 8 / d))
        omega
      · simp [estimate_video_bitrate, F64.gtZero, hd, hr]
    · simp [estimate_video_bitrate, F64.gtZero, hd]

/-- Algebraic form of the pre-clamp candidate: for a nonzero duration it is
`target_bytes * 0.85 * 8 / duration - audio_bitrate`. -/
theorem candidateBps_eq (tb ab : ℕ) (d : ℚ) (hd : d ≠ 0) :
    candidateBps tb ab d = (tb : ℚ) * (85 / 100) * 8 / d - ab := by
  unfold candidateBps reserveBytes audioBytes
  field_simp
  ring

/-! ### Claims -/

/-- C1: with no override, a finite strictly positive probed duration and a
strictly positive reserve `target_bytes * 0.85 - audio_bps / 8 * duration`,
the resolved video bitrate lies in the inclusive range [200000, 1500000]. -/
theorem resolved_bitrate_in_clamp_range (tb ab : ℕ) (d : ℚ) (hd : 0 < d)
    (hr : 0 < reserveBytes tb ab d) :
    200000 ≤ estimate_video_bitrate none (F64.num d) tb ab ∧
      estimate_video_bitrate none (F64.num d) tb ab ≤ 1500000 := by
  rw [estimate_eq_clamp_of_pos_reserve tb ab d hd hr]
  exact clampU64_range _

/-- Witness for C1 at duration 100 s, target 10485760 bytes, audio 64000 bps. -/
theorem resolved_bitrate_in_clamp_range_witness :
    (0 : ℚ) < 100 ∧ 0 < reserveBytes 10485760 64000 100 ∧
      (200000 ≤ estimate_video_bitrate none (F64.num 100) 10485760 64000 ∧
        estimate_video_bitrate none (F64.num 100) 10485760 64000 ≤ 1500000) :=
  ⟨by norm_num, by norm_num [reserveBytes, audioBytes],
    resolved_bitrate_in_clamp_range 10485760 64000 100 (by norm_num)
      (by norm_num [reserveBytes, audioBytes])⟩

/-- C2: an explicit override is returned exactly, for every duration (NaN,
infinities and finite values alike) and every target size and audio bitrate;
no clamping is applied (in particular 2000000, outside [200000, 1500000], is
passed through). -/
theorem override_returned_unchanged (v tb ab : ℕ) (duration : F64) :
    estimate_video_bitrate (some v) duration tb ab = v := by
  simp [estimate_video_bitrate]

/-- C3: with no override, a failed probe (duration unknown, defaulted to 0)
or any duration ≤ 0 (including negative infinity) resolves to exactly the
500000 bps default, for every target size and audio bitrate. -/
theorem unknown_or_nonpositive_duration_default (tb ab : ℕ) (probed : Option F64)
    (h : probed = none ∨ probed = some (F64.inf true) ∨
      ∃ d, probed = some (F64.num d) ∧ d ≤ 0) :
    main_video_bitrate none probed tb ab = 500000 := by
  rcases h with h | h | ⟨d, h, hd⟩ <;> subst h <;>
    simp [main_video_bitrate, estimate_video_bitrate, F64.gtZero, not_lt.mpr, *]

/-- Witness for C3 at a failed probe. -/
theorem unknown_or_nonpositive_duration_default_witness :
    ((none : Option F64) = none ∨ (none : Option F64) = some (F64.inf true) ∨
      ∃ d, (none : Option F64) = some (F64.num d) ∧ d ≤ 0) ∧
      main_video_bitrate none none 123456 48000 = 500000 :=
  ⟨Or.inl rfl, unknown_or_nonpositive_duration_default 123456 48000 none (Or.inl rfl)⟩

/-- C4: with no override and a finite strictly positive duration, a reserve
that is zero or negative yields exactly the 500000 bps default, and (the
claim's "in particular") the estimator with no override never returns a zero
bitrate on any input. -/
theorem nonpositive_reserve_default (tb ab : ℕ) (d : ℚ) (hd : 0 < d)
    (hr : reserveBytes tb ab d ≤ 0) :
    estimate_video_bitrate none (F64.num d) tb ab = 500000 ∧
      ∀ (duration : F64) (tb2 ab2 : ℕ),
        0 < estimate_video_bitrate none duration tb2 ab2 := by
  refine ⟨?_, fun duration tb2 ab2 => estimate_none_pos duration tb2 ab2⟩
  simp [estimate_video_bitrate, F64.gtZero, hd, not_lt.mpr hr]

/-- Witness for C4 at the spec's scenario: 1000 target bytes, 60 s,
64000 bps audio (reserve is 850 - 480000 < 0). -/
theorem nonpositive_reserve_default_witness :
    (0 : ℚ) < 60 ∧ reserveBytes 1000 64000 60 ≤ 0 ∧
      estimate_video_bitrate none (F64.num 60) 1000 64000 = 500000 :=
  ⟨by norm_num, by norm_num [reserveBytes, audioBytes],
    (nonpositive_reserve_default 1000 64000 60 (by norm_num)
      (by norm_num [reserveBytes, audioBytes])).1⟩

/-- C5 counterexample: the claim "buffer size = video bitrate / 4" fails at
the default resolved bitrate 500000 bps: the `-bufsize` argument is
`500000 / 500 = 1000` kilobits, i.e. 1000000 bits, while 500000 / 4 is
125000. -/
theorem bufsize_not_quarter_of_bitrate :
    ¬ bufsizeArgBits (main_video_bitrate none none (10 * 1024 * 1024) 64000)
        = main_video_bitrate none none (10 * 1024 * 1024) 64000 / 4 := by
  decide

/-- C5 amended: the `-bufsize` argument handed to the encoder is
`v_bitrate / 500` kilobits — exactly twice the `-b:v` argument
`v_bitrate / 1000` kilobits whenever the bitrate is a multiple of 1000, and
within one kilobit of twice it in general; the buffer is about 2x the video
bitrate, not a quarter of it. -/
theorem bufsize_twice_bitrate_arg (v : ℕ) :
    2 * bvArgKilobits v ≤ bufsizeArgKilobits v ∧
      bufsizeArgKilobits v ≤ 2 * bvArgKilobits v + 1 ∧
      (1000 ∣ v → bufsizeArgKilobits v = 2 * bvArgKilobits v) := by
  unfold bvArgKilobits bufsizeArgKilobits
  refine ⟨by omega, by omega, fun ⟨k, hk⟩ => by subst hk; omega⟩

/-- Witness for C5's amended claim at the default bitrate 500000. -/
theorem bufsize_twice_bitrate_arg_witness :
    (1000 : ℕ) ∣ 500000 ∧ bufsizeArgKilobits 500000 = 2 * bvArgKilobits 500000 :=
  ⟨by decide, (bufsize_twice_bitrate_arg 500000).2.2 (by decide)⟩

/-- C6: at duration 100 s, target 10485760 bytes, audio 64000 bps and no
override: the audio byte budget is 800000, the reserve is 8112896, the exact
pre-clamp candidate is 649031.68, and the returned (truncated) bitrate is
649031, strictly inside the clamp range. -/
theorem scenario_100s_exact_values :
    audioBytes 64000 100 = 800000 ∧
      reserveBytes 10485760 64000 100 = 8112896 ∧
      candidateBps 10485760 64000 100 = 64903168 / 100 ∧
      estimate_video_bitrate none (F64.num 100) 10485760 64000 = 649031 ∧
      200000 < 649031 ∧ 649031 < 1500000 := by
  refine ⟨by norm_num [audioBytes], by norm_num [reserveBytes, audioBytes],
    by norm_num [candidateBps, reserveBytes, audioBytes], ?_, by norm_num, by norm_num⟩
  norm_num [estimate_video_bitrate, reserveBytes, audioBytes, f64toU64, clampU64, F64.gtZero]
  decide

/-- C7: with no override, audio bitrate and a strictly positive duration held
fixed, the pre-clamp candidate bitrate is monotone in the target size. -/
theorem candidate_monotone_in_target (ab : ℕ) (d : ℚ) (hd : 0 < d)
    (t1 t2 : ℕ) (ht : t1 ≤ t2) :
    candidateBps t1 ab d ≤ candidateBps t2 ab d := by
  unfold candidateBps reserveBytes
  have ht2 : (t1 : ℚ) ≤ (t2 : ℚ) := by exact_mod_cast ht
  gcongr

/-- Witness for C7 at targets 1000 ≤ 2000, audio 64000 bps, duration 50 s. -/
theorem candidate_monotone_in_target_witness :
    (0 : ℚ) < 50 ∧ (1000 : ℕ) ≤ 2000 ∧
      candidateBps 1000 64000 50 ≤ candidateBps 2000 64000 50 :=
  ⟨by norm_num, by norm_num,
    candidate_monotone_in_target 64000 50 (by norm_num) 1000 2000 (by norm_num)⟩

/-- C8: with no override, target size and audio bitrate held fixed, the
pre-clamp candidate bitrate is antitone in the (strictly positive)
duration. -/
theorem candidate_antitone_in_duration (tb ab : ℕ) (d1 d2 : ℚ)
    (h1 : 0 < d1) (h2 : 0 < d2) (hdle : d1 ≤ d2) :
    candidateBps tb ab d2 ≤ candidateBps tb ab d1 := by
  rw [candidateBps_eq tb ab d1 (ne_of_gt h1), candidateBps_eq tb ab d2 (ne_of_gt h2)]
  have hnum : (0 : ℚ) ≤ (tb : ℚ) * (85 / 100) * 8 := by positivity
  gcongr

/-- Witness for C8 at durations 50 ≤ 100, target 10485760, audio 64000. -/
theorem candidate_antitone_in_duration_witness :
    (0 : ℚ) < 50 ∧ (0 : ℚ) < 100 ∧ (50 : ℚ) ≤ 100 ∧
      candidateBps 10485760 64000 100 ≤ candidateBps 10485760 64000 50 :=
  ⟨by norm_num, by norm_num, by norm_num,
    candidate_antitone_in_duration 10485760 64000 50 100 (by norm_num) (by norm_num)
      (by norm_num)⟩

/-- C9: every failure mode of the probe — the command cannot be run, the tool
exits unsuccessfully, or its trimmed output (empty or malformed included)
does not parse as a floating-point number — yields `none` rather than an
abort, and a duration is returned exactly when the tool succeeds and its
trimmed output parses. -/
theorem probe_failures_collapse_to_none :
    probe_duration none = none ∧
      (∀ o : CmdOutput, o.success = false → probe_duration (some o) = none) ∧
      (∀ o : CmdOutput, parseF64 (trimString o.stdout) = none →
        probe_duration (some o) = none) ∧
      probe_duration (some ⟨true, ""⟩) = none ∧
      probe_duration (some ⟨true, "12x5"⟩) = none ∧
      (∀ (out : Option CmdOutput) (d : F64),
        probe_duration out = some d ↔
          ∃ o, out = some o ∧ o.success = true ∧
            parseF64 (trimString o.stdout) = some d) := by
  refine ⟨rfl, ?_, ?_, by decide, by decide, ?_⟩
  · intro o h
    simp [probe_duration, h]
  · intro o h
    cases hs : o.success <;> simp [probe_duration, hs, h]
  · intro out d
    cases out with
    | none => simp [probe_duration]
    | some o => cases hs : o.success <;> simp [probe_duration, hs]

/-- Witness for C9: a non-zero exit with parseable output, and a successful
exit with malformed output, both collapse to `none`. -/
theorem probe_failures_collapse_to_none_witness :
    (({ success := false, stdout := "87.5" } : CmdOutput).success = false ∧
        probe_duration (some { success := false, stdout := "87.5" }) = none) ∧
      (parseF64 (trimString ({ success := true, stdout := "oops" } : CmdOutput).stdout)
          = none ∧
        probe_duration (some { success := true, stdout := "oops" }) = none) :=
  ⟨⟨rfl, probe_failures_collapse_to_none.2.1 { success := false, stdout := "87.5" } rfl⟩,
    ⟨by decide, probe_failures_collapse_to_none.2.2.1
      { success := true, stdout := "oops" } (by decide)⟩⟩

/-- C10: a probe whose output parses as NaN takes the same path as an unknown
duration: `NaN > 0.0` is false, so with no override the resolved bitrate is
exactly the 500000 default, for every target size and audio bitrate. -/
theorem nan_duration_default_path (tb ab : ℕ) :
    probe_duration (some { success := true, stdout := "NaN" }) = some F64.nan ∧
      F64.gtZero F64.nan = false ∧
      estimate_video_bitrate none F64.nan tb ab = 500000 ∧
      main_video_bitrate none
        (probe_duration (some { success := true, stdout := "NaN" })) tb ab = 500000 := by
  have hp : probe_duration (some { success := true, stdout := "NaN" })
      = some F64.nan := by decide
  refine ⟨hp, rfl, ?_, ?_⟩
  · simp [estimate_video_bitrate, F64.gtZero]
  · rw [hp]
    simp [main_video_bitrate, estimate_video_bitrate, F64.gtZero]

end Mp4Smaller
